import Mathlib

set_option linter.unusedVariables false

/-
Verification of the clinic appointment-booking backend.

The definitions below are a shallow embedding of the scheduling, pricing and VIP
subscription logic of src/controllers/appointment.controller.js and
src/controllers/vip.controller.js, over the data model of prisma/schema.prisma.
JS floating point numbers are embedded as rationals, JS Date values as abstract
minute counts, and the persistent store as explicit record lists threaded through
each operation. Each definition cites the source lines it translates.
-/

namespace Clinic

/-- Appointment lifecycle status, enum AppointmentStatus of prisma/schema.prisma. -/
inductive AppointmentStatus
  | scheduled
  | confirmed
  | inProgress
  | completed
  | cancelled
  | noShow
deriving DecidableEq, Repr

/-- Requesting user role, enum UserRole of prisma/schema.prisma. -/
inductive UserRole
  | admin
  | staff
  | cliente
deriving DecidableEq, Repr

/-- VIP subscription status, enum SubscriptionStatus of prisma/schema.prisma. -/
inductive SubStatus
  | pending
  | active
  | expired
  | cancelled
deriving DecidableEq, Repr

/-- VIP plan type; the zod validator vipSubscriptionSchema restricts planType to
the two literals monthly and annual. -/
inductive PlanType
  | monthly
  | annual
deriving DecidableEq, Repr

/-- A clock time of day. In the source these are HH:MM strings; the validators
constrain the minute part to 00..59, and zero padding makes the string a bijective
encoding of this pair, so times are embedded as the pair itself. -/
structure Time where
  hour : Nat
  minute : Fin 60
deriving DecidableEq, Repr

/-- Total minutes from midnight; the arithmetic the slot loop performs on times
(appointment.controller.js line 1025). -/
def Time.toMinutes (t : Time) : Nat := t.hour * 60 + t.minute.val

/-- A point in time, as stored in the appointment date column: the JS Date built
from a calendar day and a time of day (new Date of date plus T plus time).
Days are abstract indices; day 0 is taken to be a Sunday so that the JS getDay
weekday of a day index is the index mod 7. -/
structure Moment where
  day : Nat
  time : Time
deriving DecidableEq, Repr

/-- Minutes since the epoch: the linear order underlying JS Date comparison. -/
def Moment.abs (m : Moment) : Nat := m.day * 1440 + m.time.toMinutes

/-- JS Date.getDay of a day index: 0 = Sunday. -/
def jsGetDay (day : Nat) : Nat := day % 7

/-- Appointment record, model Appointment of prisma/schema.prisma. The completedAt
column appears in the controller (APPOINTMENT_BASE_SELECT and complete) and in the
spec data model, so it is kept here. Prices are rationals standing for JS numbers. -/
structure Appointment where
  id : Nat
  date : Moment
  time : Time
  status : AppointmentStatus
  notes : Option String
  originalPrice : ℚ
  finalPrice : ℚ
  vipDiscount : ℚ
  userId : Nat
  serviceId : Nat
  clinicId : Nat
  cancelledAt : Option Nat
  cancelReason : Option String
  completedAt : Option Nat
  createdAt : Nat
deriving DecidableEq, Repr

/-- Service record, model Service of prisma/schema.prisma (the fields the
controllers read). -/
structure Service where
  id : Nat
  clinicId : Nat
  price : ℚ
  duration : Nat
  vipDiscount : ℚ
  isActive : Bool
deriving DecidableEq, Repr

/-- Clinic configuration, model Clinic of prisma/schema.prisma. workingDays is the
parsed form of the comma separated day list (ISO days 1..7, 7 = Sunday); the schema
declares the column NOT NULL with default 1,2,3,4,5 and the validator keeps it
nonempty, so the JS null fallback branch is not reachable and is not modelled. -/
structure ClinicCfg where
  id : Nat
  openTime : Time
  closeTime : Time
  workingDays : List Nat
deriving DecidableEq, Repr

/-- VIP subscription record, model VipSubscription of prisma/schema.prisma.
startDate and endDate are epoch minutes. cancelReason is written by the vip
controller cancel handler and kept here. -/
structure VipSubscription where
  id : Nat
  userId : Nat
  status : SubStatus
  planType : PlanType
  startDate : Nat
  endDate : Nat
  price : ℚ
  discount : ℚ
  cancelledAt : Option Nat
  cancelReason : Option String
deriving DecidableEq, Repr

/-- User record, the fields the vip controller writes. -/
structure User where
  id : Nat
  isVIP : Bool
  vipExpiry : Option Nat
deriving DecidableEq, Repr

/-- The persistent store: the tables the embedded operations touch. -/
structure DB where
  appointments : List Appointment
  services : List Service
  clinics : List ClinicCfg
  subs : List VipSubscription
  users : List User
deriving DecidableEq, Repr

/-- Status in SCHEDULED, CONFIRMED, IN_PROGRESS: the statuses that occupy a slot
(the status-in lists at appointment.controller.js lines 121, 914, 982). -/
def nonTerminal : AppointmentStatus → Bool
  | .scheduled => true
  | .confirmed => true
  | .inProgress => true
  | _ => false

/-- prisma appointment.findUnique by id. -/
def findAppointment (db : DB) (id : Nat) : Option Appointment :=
  db.appointments.find? fun a => decide (a.id = id)

/-- prisma clinic.findUnique by id. -/
def findClinic (db : DB) (id : Nat) : Option ClinicCfg :=
  db.clinics.find? fun c => decide (c.id = id)

/-- Pricing snapshot returned by the pricing calculator. -/
structure Pricing where
  finalPrice : ℚ
  vipDiscount : ℚ
deriving DecidableEq, Repr

/-- appointment.controller.js lines 84..90. The JS guard (!vipDiscount or
vipDiscount <= 0) collapses to vipDiscount <= 0 on rationals, the only falsy
number being 0. -/
def calculateVIPPrice (originalPrice : ℚ) (vipDiscount : ℚ) : Pricing :=
  if vipDiscount ≤ 0 then { finalPrice := originalPrice, vipDiscount := 0 }
  else { finalPrice := originalPrice * (1 - vipDiscount / 100), vipDiscount := vipDiscount }

/-- appointment.controller.js lines 92..104: the user holds a subscription with
status ACTIVE and endDate at or after now (VIP_SUBSCRIPTION_WHERE, lines 50..53). -/
def checkUserVIPStatus (db : DB) (now : Nat) (userId : Nat) : Bool :=
  db.subs.any fun s =>
    decide (s.userId = userId ∧ s.status = SubStatus.active ∧ now ≤ s.endDate)

/-- appointment.controller.js lines 106..112: first active service with the given
id in the given clinic. -/
def validateServiceExists (db : DB) (serviceId clinicId : Nat) : Option Service :=
  db.services.find? fun s =>
    decide (s.id = serviceId ∧ s.clinicId = clinicId ∧ s.isActive = true)

/-- appointment.controller.js lines 114..132: the slot is free when no appointment
with the combined datetime, the time, the clinic and a non-terminal status exists,
excluding excludeId when given. -/
def checkTimeAvailability (db : DB) (day : Nat) (time : Time) (clinicId : Nat)
    (excludeId : Option Nat) : Bool :=
  let appointmentDateTime : Moment := { day := day, time := time }
  !(db.appointments.any fun a =>
    decide (a.date = appointmentDateTime) && decide (a.time = time) &&
    decide (a.clinicId = clinicId) && nonTerminal a.status &&
    (match excludeId with
     | none => true
     | some e => decide (¬ a.id = e)))

/-- Body of a create request after zod validation (appointmentSchema). -/
structure CreateRequest where
  day : Nat
  time : Time
  serviceId : Nat
  notes : Option String
deriving DecidableEq, Repr

/-- The error responses of create, in the order the handler tests for them. -/
inductive CreateErr
  | notFound
  | conflict
  | pastDate
deriving DecidableEq, Repr

/-- Result of a create call. -/
inductive CreateOutcome
  | notFound
  | conflict
  | pastDate
  | created (a : Appointment)
deriving DecidableEq, Repr

/-- Validation phase of create (appointment.controller.js lines 150..178): the
service lookup, the slot availability read, the VIP lookup and the future-date
check, all evaluated against the shared store, producing the exact record the
insert will persist. No lock or constraint ties this phase to the insert. -/
def createCheck (db : DB) (now : Nat) (userId clinicId newId : Nat)
    (req : CreateRequest) : Except CreateErr Appointment :=
  match validateServiceExists db req.serviceId clinicId with
  | none => .error .notFound
  | some service =>
    if checkTimeAvailability db req.day req.time clinicId none then
      let appointmentDateTime : Moment := { day := req.day, time := req.time }
      if appointmentDateTime.abs ≤ now then .error .pastDate
      else
        let isVIP := checkUserVIPStatus db now userId
        let pricing := calculateVIPPrice service.price
          (if isVIP then service.vipDiscount else 0)
        .ok { id := newId
              date := appointmentDateTime
              time := req.time
              status := .scheduled
              notes := req.notes
              originalPrice := service.price
              finalPrice := pricing.finalPrice
              vipDiscount := pricing.vipDiscount
              userId := userId
              serviceId := req.serviceId
              clinicId := clinicId
              cancelledAt := none
              cancelReason := none
              completedAt := none
              createdAt := now }
    else .error .conflict

/-- The prisma insert of create (appointment.controller.js lines 180..198): an
unconditional append. The schema and the init migration declare no unique index
over (clinicId, date, time), so nothing re-checks the slot at write time. -/
def createCommit (db : DB) (a : Appointment) : DB :=
  { db with appointments := db.appointments ++ [a] }

/-- The whole create handler run in isolation: validation phase then insert.
The notifOk argument is the outcome of the notification send; the handler chains
catch with a logged warning onto the un-awaited promise (lines 200..203), so the
response and the store are built without consulting it. -/
def create (db : DB) (now : Nat) (userId clinicId newId : Nat) (req : CreateRequest)
    (notifOk : Bool) : CreateOutcome × DB :=
  match createCheck db now userId clinicId newId req with
  | .error .notFound => (.notFound, db)
  | .error .conflict => (.conflict, db)
  | .error .pastDate => (.pastDate, db)
  | .ok a => (.created a, createCommit db a)

/-- prisma appointment.update where id: replace the record with that id. -/
def updateAppointmentIn (db : DB) (a : Appointment) : DB :=
  { db with appointments := db.appointments.map fun b => if b.id = a.id then a else b }

/-- Default cancel reason string of the cancel handler (line 592). -/
def defaultCancelReason : String := "No especificado"

/-- Result of a cancel call. -/
inductive CancelOutcome
  | notFound
  | forbidden
  | alreadyCancelled
  | completedNotCancellable
  | ok (a : Appointment)
deriving DecidableEq, Repr

/-- appointment.controller.js lines 541..612: cancel. Rejects a missing record,
a foreign record for a CLIENTE actor, an already CANCELLED record and a COMPLETED
record, in that order; otherwise stamps status CANCELLED, cancelledAt and
cancelReason. The notification send is un-awaited with catch (lines 603..604). -/
def cancelAppointment (db : DB) (now : Nat) (id : Nat) (reason : Option String)
    (actorId : Nat) (role : UserRole) (notifOk : Bool) : CancelOutcome × DB :=
  match findAppointment db id with
  | none => (.notFound, db)
  | some a =>
    if role = UserRole.cliente ∧ ¬ a.userId = actorId then (.forbidden, db)
    else if a.status = AppointmentStatus.cancelled then (.alreadyCancelled, db)
    else if a.status = AppointmentStatus.completed then (.completedNotCancellable, db)
    else
      let a2 := { a with status := AppointmentStatus.cancelled
                         cancelledAt := some now
                         cancelReason := some (reason.getD defaultCancelReason) }
      (.ok a2, updateAppointmentIn db a2)

/-- Result of a confirm call. -/
inductive ConfirmOutcome
  | notFound
  | notScheduled
  | ok (a : Appointment)
deriving DecidableEq, Repr

/-- appointment.controller.js lines 1268..1309: confirm, legal only from
SCHEDULED. The notification send is un-awaited with catch (lines 1302..1303). -/
def confirmAppointment (db : DB) (id : Nat) (notifOk : Bool) : ConfirmOutcome × DB :=
  match findAppointment db id with
  | none => (.notFound, db)
  | some a =>
    if a.status = AppointmentStatus.scheduled then
      let a2 := { a with status := AppointmentStatus.confirmed }
      (.ok a2, updateAppointmentIn db a2)
    else (.notScheduled, db)

/-- Result of a complete call. -/
inductive CompleteOutcome
  | notFound
  | notCompletable
  | ok (a : Appointment)
deriving DecidableEq, Repr

/-- appointment.controller.js lines 1320..1365: complete, legal only from
CONFIRMED or IN_PROGRESS; keeps the old notes when none are supplied. -/
def completeAppointment (db : DB) (now : Nat) (id : Nat) (notes : Option String) :
    CompleteOutcome × DB :=
  match findAppointment db id with
  | none => (.notFound, db)
  | some a =>
    if a.status = AppointmentStatus.confirmed ∨ a.status = AppointmentStatus.inProgress then
      let a2 := { a with status := AppointmentStatus.completed
                         notes := match notes with
                                  | some n => some n
                                  | none => a.notes
                         completedAt := some now }
      (.ok a2, updateAppointmentIn db a2)
    else (.notCompletable, db)

/-- Result of a reschedule call. -/
inductive RescheduleOutcome
  | notFound
  | forbidden
  | pastDate
  | conflict
  | ok (a : Appointment)
deriving DecidableEq, Repr

/-- appointment.controller.js lines 780..864: reschedule. The handler never reads
the current status: it validates only the future date and the new slot (excluding
the record itself), then writes the new datetime with status reset to SCHEDULED.
The notification send is un-awaited with catch (lines 853..856). -/
def reschedule (db : DB) (now : Nat) (id : Nat) (newDay : Nat) (newTime : Time)
    (actorId : Nat) (role : UserRole) (notifOk : Bool) : RescheduleOutcome × DB :=
  match findAppointment db id with
  | none => (.notFound, db)
  | some a =>
    if role = UserRole.cliente ∧ ¬ a.userId = actorId then (.forbidden, db)
    else
      let newDateTime : Moment := { day := newDay, time := newTime }
      if newDateTime.abs ≤ now then (.pastDate, db)
      else if checkTimeAvailability db newDay newTime a.clinicId (some id) then
        let a2 := { a with date := newDateTime, time := newTime,
                           status := AppointmentStatus.scheduled }
        (.ok a2, updateAppointmentIn db a2)
      else (.conflict, db)

/-- Body of an update request after zod validation (updateAppointmentSchema):
every field optional. -/
structure UpdatePayload where
  day : Option Nat
  time : Option Time
  serviceId : Option Nat
  notes : Option String
  status : Option AppointmentStatus
deriving DecidableEq, Repr

/-- The updateData object the update handler accumulates (lines 447..504): a
partial record, one optional entry per column it may write. -/
structure UpdateData where
  status : Option AppointmentStatus := none
  date : Option Moment := none
  time : Option Time := none
  serviceId : Option Nat := none
  originalPrice : Option ℚ := none
  finalPrice : Option ℚ := none
  vipDiscount : Option ℚ := none
  notes : Option String := none
deriving DecidableEq, Repr

/-- Object.keys(updateData).length === 0 (line 506). -/
def UpdateData.isEmpty (u : UpdateData) : Bool :=
  u.status.isNone && u.date.isNone && u.time.isNone && u.serviceId.isNone &&
  u.originalPrice.isNone && u.finalPrice.isNone && u.vipDiscount.isNone && u.notes.isNone

/-- prisma partial-update semantics: entries present in updateData overwrite the
record, absent columns keep their value. -/
def UpdateData.applyTo (u : UpdateData) (a : Appointment) : Appointment :=
  { a with
    status := u.status.getD a.status
    date := u.date.getD a.date
    time := u.time.getD a.time
    serviceId := u.serviceId.getD a.serviceId
    originalPrice := u.originalPrice.getD a.originalPrice
    finalPrice := u.finalPrice.getD a.finalPrice
    vipDiscount := u.vipDiscount.getD a.vipDiscount
    notes := u.notes.or a.notes }

/-- Result of an update call. -/
inductive UpdateOutcome
  | notFound
  | forbidden
  | conflict
  | serviceNotFound
  | nothingToUpdate
  | ok (a : Appointment)
deriving DecidableEq, Repr

/-- Tail of the update handler (lines 502..522): merge the notes entry when the
payload carries one, reject an empty updateData with the nothing-to-update error,
otherwise write the merged record. -/
def finishUpdate (db : DB) (a : Appointment) (ud : UpdateData)
    (payload : UpdatePayload) : UpdateOutcome × DB :=
  let ud2 :=
    match payload.notes with
    | some n => { ud with notes := some n }
    | none => ud
  if ud2.isEmpty then (.nothingToUpdate, db)
  else
    let a2 := ud2.applyTo a
    (.ok a2, updateAppointmentIn db a2)

/-- appointment.controller.js lines 406..530: update. A status entry is only
written for ADMIN or STAFF actors and is silently skipped otherwise (line 449);
a changed date or time triggers the availability re-check excluding the record
itself (lines 454..474); a changed service is re-validated and triggers the
pricing recompute (lines 481..500). -/
def updateAppointment (db : DB) (now : Nat) (id : Nat) (payload : UpdatePayload)
    (actorId : Nat) (role : UserRole) : UpdateOutcome × DB :=
  match findAppointment db id with
  | none => (.notFound, db)
  | some a =>
    if role = UserRole.cliente ∧ ¬ a.userId = actorId then (.forbidden, db)
    else
      let ud0 : UpdateData := {}
      let ud1 :=
        match payload.status with
        | some st =>
          if role = UserRole.admin ∨ role = UserRole.staff then { ud0 with status := some st }
          else ud0
        | none => ud0
      let newDay := payload.day.getD a.date.day
      let newTime := payload.time.getD a.time
      if (payload.day.isSome || payload.time.isSome) &&
         decide (¬ (newDay = a.date.day ∧ newTime = a.time)) &&
         !(checkTimeAvailability db newDay newTime a.clinicId (some id))
      then (.conflict, db)
      else
        let ud2 :=
          match payload.day with
          | some d => { ud1 with date := some { day := d, time := newTime } }
          | none => ud1
        let ud3 :=
          match payload.time with
          | some t => { ud2 with time := some t }
          | none => ud2
        match payload.serviceId with
        | some sid =>
          if sid = a.serviceId then finishUpdate db a ud3 payload
          else
            match validateServiceExists db sid a.clinicId with
            | none => (.serviceNotFound, db)
            | some svc =>
              let isVIP := checkUserVIPStatus db now a.userId
              let pricing := calculateVIPPrice svc.price (if isVIP then svc.vipDiscount else 0)
              finishUpdate db a
                { ud3 with serviceId := some sid
                           originalPrice := some svc.price
                           finalPrice := some pricing.finalPrice
                           vipDiscount := some pricing.vipDiscount }
                payload
        | none => finishUpdate db a ud3 payload

/-- vip.controller.js: prisma vipSubscription.findFirst with status ACTIVE and
endDate at or after now (lines 272..278 and the identical lookups of cancel,
updatePlan, reactivate, extend). -/
def findActiveSubscription (db : DB) (now : Nat) (userId : Nat) : Option VipSubscription :=
  db.subs.find? fun s =>
    decide (s.userId = userId ∧ s.status = SubStatus.active ∧ now ≤ s.endDate)

/-- endDate.setMonth(endDate.getMonth() + k): calendar arithmetic abstracted to
30-day months in epoch minutes; no claim depends on the exact month length. -/
def addMonths (t : Nat) (k : Nat) : Nat := t + k * 43200

/-- endDate.setFullYear(endDate.getFullYear() + k): 365-day years in epoch
minutes; no claim depends on the exact year length. -/
def addYears (t : Nat) (k : Nat) : Nat := t + k * 525600

/-- Result of a subscribe call. serverError is the catch-all 500 of the handler. -/
inductive SubscribeOutcome
  | conflictActive
  | paymentError
  | serverError
  | created (s : VipSubscription)
deriving DecidableEq, Repr

/-- vip.controller.js lines 257..360: subscribe. Modelled from the spec for the
notification collaborator: the repository wires the handlers to a
notificationService whose appointment and VIP send methods are not implemented
anywhere under src, and the spec declares the sender an external collaborator
whose async send either succeeds or fails; notifOk is that outcome. The handler
checks the duplicate active subscription before computing the price and before
the payment call; a failed payment returns without persisting anything; on
success it persists the subscription, flips the user VIP flag, and then awaits
the welcome notification with no catch (line 343), so a failed send falls to the
catch-all 500 after the records were already written. The third component of the
result records whether the payment charge was attempted. -/
def vipSubscribe (db : DB) (now : Nat) (userId : Nat) (planType : PlanType)
    (paymentOk : Bool) (notifOk : Bool) (monthlyPrice annualPrice : ℚ) (newId : Nat) :
    SubscribeOutcome × DB × Bool :=
  match findActiveSubscription db now userId with
  | some _ => (.conflictActive, db, false)
  | none =>
    let startDate := now
    let planData : Nat × ℚ × ℚ :=
      match planType with
      | .monthly => (addMonths now 1, monthlyPrice, 0)
      | .annual =>
        let originalPrice := monthlyPrice * 12
        (addYears now 1, annualPrice, (originalPrice - annualPrice) / originalPrice * 100)
    let endDate := planData.1
    let price := planData.2.1
    let discount := planData.2.2
    if paymentOk then
      let s : VipSubscription :=
        { id := newId, userId := userId, status := SubStatus.active, planType := planType,
          startDate := startDate, endDate := endDate, price := price, discount := discount,
          cancelledAt := none, cancelReason := none }
      let db2 : DB :=
        { db with subs := db.subs ++ [s]
                  users := db.users.map fun u =>
                    if u.id = userId then { u with isVIP := true, vipExpiry := some endDate }
                    else u }
      if notifOk then (.created s, db2, true) else (.serverError, db2, true)
    else (.paymentError, db, true)

/-- Default reason string of the vip cancel handler (line 389). -/
def defaultVipCancelReason : String := "Usuario canceló"

/-- Result of a vip cancel call. -/
inductive VipCancelOutcome
  | noActive
  | serverError
  | ok (s : VipSubscription)
deriving DecidableEq, Repr

/-- vip.controller.js lines 363..403: cancel the active subscription: status
CANCELLED, cancelledAt and cancelReason stamped, endDate untouched. The
cancellation notification is awaited with no catch (line 394), so a failed send
falls to the catch-all 500 after the update was already written. -/
def vipCancel (db : DB) (now : Nat) (userId : Nat) (reason : Option String)
    (notifOk : Bool) : VipCancelOutcome × DB :=
  match findActiveSubscription db now userId with
  | none => (.noActive, db)
  | some s =>
    let s2 := { s with status := SubStatus.cancelled
                       cancelledAt := some now
                       cancelReason := some (reason.getD defaultVipCancelReason) }
    let db2 := { db with subs := db.subs.map fun t => if t.id = s.id then s2 else t }
    if notifOk then (.ok s2, db2) else (.serverError, db2)

/-- The totalSavings aggregate of vip.controller.js getStatus (lines 45..55, and
the identical aggregate of getStats lines 161..169): the SUM of the stored
vipDiscount column over COMPLETED appointments of the user with positive
vipDiscount created at or after the subscription start. -/
def getStatusTotalSavings (db : DB) (userId : Nat) (subscriptionStart : Nat) : ℚ :=
  ((db.appointments.filter fun a =>
      decide (a.userId = userId ∧ a.status = AppointmentStatus.completed ∧
        0 < a.vipDiscount ∧ subscriptionStart ≤ a.createdAt)).map
    fun a => a.vipDiscount).sum

/-- The savings statistic as the specification sentence reads: the sum of
originalPrice minus finalPrice over the COMPLETED appointments of the user dated
at or after the subscription start. -/
def specSavings (db : DB) (userId : Nat) (subscriptionStart : Nat) : ℚ :=
  ((db.appointments.filter fun a =>
      decide (a.userId = userId ∧ a.status = AppointmentStatus.completed ∧
        subscriptionStart ≤ a.date.abs)).map
    fun a => a.originalPrice - a.finalPrice).sum

/-- serviceDuration fallback (line 1015): service.duration or 60, 0 being the
only falsy integer. -/
def effectiveDuration (s : Service) : Nat := if s.duration = 0 then 60 else s.duration

/-- The booked-times set of getAvailableSlots (lines 975..985 and 1008): times of
appointments of the clinic whose datetime falls inside the requested day and
whose status is non-terminal. -/
def bookedTimes (db : DB) (clinicId : Nat) (day : Nat) : List Time :=
  (db.appointments.filter fun a =>
    decide (a.clinicId = clinicId) &&
    decide (day * 1440 ≤ a.date.abs) && decide (a.date.abs < (day + 1) * 1440) &&
    nonTerminal a.status).map fun a => a.time

/-- The while loop of getAvailableSlots (lines 1018..1038), verbatim: while the
cursor is before closing, emit the slot when it is not booked and its end fits
before closing, then advance the minute by 30, rolling to the next full hour
with the minute reset to 0 when it reaches 60. -/
def availableSlotsLoop (closeH closeM : Nat) (booked : List Time) (dur : Nat)
    (h m : Nat) (hm : m < 60) : List Time :=
  if hcond : h < closeH ∨ (h = closeH ∧ m < closeM) then
    let t : Time := { hour := h, minute := ⟨m, hm⟩ }
    let rest :=
      if hstep : 60 ≤ m + 30 then
        availableSlotsLoop closeH closeM booked dur (h + 1) 0 (by omega)
      else
        availableSlotsLoop closeH closeM booked dur h (m + 30) (by omega)
    if decide (¬ t ∈ booked ∧ t.toMinutes + dur ≤ closeH * 60 + closeM)
    then t :: rest else rest
  else []
termination_by closeH * 60 + closeM - (h * 60 + m)
decreasing_by
  all_goals omega

/-- The slot times the loop cursor visits, without the booked and duration
filters: the candidate grid of the same stepping. -/
def slotCandidates (closeH closeM : Nat) (h m : Nat) (hm : m < 60) : List Time :=
  if hcond : h < closeH ∨ (h = closeH ∧ m < closeM) then
    ({ hour := h, minute := ⟨m, hm⟩ } : Time) ::
      (if hstep : 60 ≤ m + 30 then slotCandidates closeH closeM (h + 1) 0 (by omega)
       else slotCandidates closeH closeM h (m + 30) (by omega))
  else []
termination_by closeH * 60 + closeM - (h * 60 + m)
decreasing_by
  all_goals omega

/-- Result of a getAvailableSlots call. internalError is the catch-all 500,
reached when the clinic lookup returns nothing and the handler dereferences it. -/
inductive SlotsOutcome
  | serviceNotFound
  | internalError
  | ok (slots : List Time)
deriving DecidableEq, Repr

/-- appointment.controller.js lines 953..1052: getAvailableSlots. Resolve the
service and the clinic, return the empty list when the ISO weekday (getDay with
Sunday mapped to 7, lines 996..1001) is not among the working days, otherwise
run the slot loop from the opening time. -/
def getAvailableSlots (db : DB) (clinicId day serviceId : Nat) : SlotsOutcome :=
  match validateServiceExists db serviceId clinicId with
  | none => .serviceNotFound
  | some service =>
    match findClinic db clinicId with
    | none => .internalError
    | some clinic =>
      let dayOfWeek := jsGetDay day
      let isoDay := if dayOfWeek = 0 then 7 else dayOfWeek
      if isoDay ∈ clinic.workingDays then
        .ok (availableSlotsLoop clinic.closeTime.hour clinic.closeTime.minute.val
          (bookedTimes db clinicId day) (effectiveDuration service)
          clinic.openTime.hour clinic.openTime.minute.val clinic.openTime.minute.isLt)
      else .ok []

/-- A minute count from midnight read back as a time of day. -/
def minutesToTime (c : Nat) : Time :=
  { hour := c / 60, minute := ⟨c % 60, Nat.mod_lt c (by omega)⟩ }

/-- The plain 30-minute arithmetic grid of the claim: every 30 minutes from the
start, strictly before the stop. -/
def specSlotsFrom (c stop : Nat) : List Time :=
  if h : c < stop then minutesToTime c :: specSlotsFrom (c + 30) stop else []
termination_by stop - c
decreasing_by
  omega

/-- The availability enumeration as the specification sentence reads: empty when
the weekday is not a working day, otherwise the plain 30-minute grid from open to
close with the booked slots and the slots whose end overshoots closing removed. -/
def specAvailableSlots (db : DB) (clinicId day serviceId : Nat) : SlotsOutcome :=
  match validateServiceExists db serviceId clinicId with
  | none => .serviceNotFound
  | some service =>
    match findClinic db clinicId with
    | none => .internalError
    | some clinic =>
      let dayOfWeek := jsGetDay day
      let isoDay := if dayOfWeek = 0 then 7 else dayOfWeek
      if isoDay ∈ clinic.workingDays then
        .ok ((specSlotsFrom clinic.openTime.toMinutes clinic.closeTime.toMinutes).filter
          fun t => decide (¬ t ∈ bookedTimes db clinicId day ∧
            t.toMinutes + effectiveDuration service ≤ clinic.closeTime.toMinutes))
      else .ok []

/-- The occupants of one slot: non-terminal appointments of the clinic at the
combined datetime and time, the quantity the uniqueness invariant bounds by one. -/
def slotOccupants (db : DB) (clinicId : Nat) (date : Moment) (time : Time) : Nat :=
  (db.appointments.filter fun a =>
    decide (a.clinicId = clinicId ∧ a.date = date ∧ a.time = time) &&
    nonTerminal a.status).length

/-- Whether a create validation phase passed. -/
def createCheckPasses (r : Except CreateErr Appointment) : Bool :=
  match r with
  | .ok _ => true
  | .error _ => false

/-- Whether a reschedule call succeeded. -/
def rescheduleOk (r : RescheduleOutcome) : Bool :=
  match r with
  | .ok _ => true
  | _ => false

/-! Concrete store fixtures used by counterexamples and witnesses. -/

/-- The seeded facial-cleaning service of scripts/seed-services.js: price 8500,
duration 60, with a 20 percent VIP discount. -/
def svcA : Service :=
  { id := 1, clinicId := 1, price := 8500, duration := 60, vipDiscount := 20, isActive := true }

/-- A clinic on the schema defaults: open 09:00, close 18:00, working days 1..5. -/
def clinicA : ClinicCfg :=
  { id := 1, openTime := { hour := 9, minute := 0 }, closeTime := { hour := 18, minute := 0 },
    workingDays := [1, 2, 3, 4, 5] }

/-- Ten in the morning. -/
def t1000 : Time := { hour := 10, minute := 0 }

/-- An empty store holding one service, one clinic and no appointments. -/
def raceDB : DB :=
  { appointments := [], services := [svcA], clinics := [clinicA], subs := [], users := [] }

/-- A valid booking request for the free 10:00 slot of day 8, a Monday. -/
def raceReq : CreateRequest := { day := 8, time := t1000, serviceId := 1, notes := none }

/-- Validation phase of the first concurrent create request. -/
def raceA1 : Except CreateErr Appointment := createCheck raceDB 0 1 1 101 raceReq

/-- Validation phase of the second concurrent create request, interleaved before
the first insert and therefore evaluated against the same store. -/
def raceA2 : Except CreateErr Appointment := createCheck raceDB 0 2 1 102 raceReq

/-- The store after both interleaved requests commit their inserts. -/
def raceDBAfter : DB :=
  match raceA1, raceA2 with
  | .ok a1, .ok a2 => createCommit (createCommit raceDB a1) a2
  | _, _ => raceDB

/-- An active monthly subscription of user 1. -/
def sub1 : VipSubscription :=
  { id := 1, userId := 1, status := SubStatus.active, planType := PlanType.monthly,
    startDate := 0, endDate := 999999, price := 1500, discount := 0,
    cancelledAt := none, cancelReason := none }

/-- A completed appointment of user 1 with the snapshot prices 8500 and 6800 and
the snapshot discount percent 20. -/
def c8appt : Appointment :=
  { id := 1, date := { day := 100, time := t1000 }, time := t1000,
    status := AppointmentStatus.completed, notes := none,
    originalPrice := 8500, finalPrice := 6800, vipDiscount := 20,
    userId := 1, serviceId := 1, clinicId := 1,
    cancelledAt := none, cancelReason := none, completedAt := some 200, createdAt := 10 }

/-- Store with the completed discounted appointment and the active subscription. -/
def c8db : DB :=
  { appointments := [c8appt], services := [svcA], clinics := [clinicA],
    subs := [sub1], users := [{ id := 1, isVIP := true, vipExpiry := some 999999 }] }

/-- Store with one user and no subscriptions. -/
def c9db : DB :=
  { appointments := [], services := [], clinics := [], subs := [],
    users := [{ id := 1, isVIP := false, vipExpiry := none }] }

/-- An annual subscribe run on the configured default prices 1500 and 12000. -/
def c9run : SubscribeOutcome × DB × Bool :=
  vipSubscribe c9db 0 1 PlanType.annual true true 1500 12000 7

/-- A monthly subscribe run whose payment succeeds and whose welcome notification
send fails. -/
def c7run : SubscribeOutcome × DB × Bool :=
  vipSubscribe c9db 0 1 PlanType.monthly true false 1500 12000 50

/-- A completed appointment sitting in a store, target of lifecycle calls. -/
def c3appt : Appointment :=
  { id := 1, date := { day := 4, time := t1000 }, time := t1000,
    status := AppointmentStatus.completed, notes := none,
    originalPrice := 8500, finalPrice := 8500, vipDiscount := 0,
    userId := 5, serviceId := 1, clinicId := 1,
    cancelledAt := none, cancelReason := none, completedAt := some 100, createdAt := 0 }

/-- Store holding only the completed appointment. -/
def c3db : DB :=
  { appointments := [c3appt], services := [svcA], clinics := [clinicA], subs := [], users := [] }

/-- A scheduled appointment of user 1, target of the witness cancel and update. -/
def w4appt : Appointment :=
  { id := 2, date := { day := 8, time := t1000 }, time := t1000,
    status := AppointmentStatus.scheduled, notes := none,
    originalPrice := 8500, finalPrice := 8500, vipDiscount := 0,
    userId := 1, serviceId := 1, clinicId := 1,
    cancelledAt := none, cancelReason := none, completedAt := none, createdAt := 0 }

/-- Store holding only the scheduled appointment. -/
def w4db : DB :=
  { appointments := [w4appt], services := [svcA], clinics := [clinicA], subs := [], users := [] }

/-- The appointment the witness create run persists: the snapshot of the service
price with no discount for a non-VIP requester. -/
def w1appt : Appointment :=
  { id := 101, date := { day := 8, time := t1000 }, time := t1000,
    status := AppointmentStatus.scheduled, notes := none,
    originalPrice := svcA.price,
    finalPrice := (calculateVIPPrice svcA.price 0).finalPrice,
    vipDiscount := (calculateVIPPrice svcA.price 0).vipDiscount,
    userId := 1, serviceId := 1, clinicId := 1,
    cancelledAt := none, cancelReason := none, completedAt := none, createdAt := 0 }

/-- An update request carrying only a status change. -/
def c10payload : UpdatePayload :=
  { day := none, time := none, serviceId := none, notes := none,
    status := some AppointmentStatus.completed }

/-- A 30-minute service of clinic 1. -/
def c5svc : Service :=
  { id := 1, clinicId := 1, price := 8500, duration := 30, vipDiscount := 0, isActive := true }

/-- A clinic opening at 09:45 and closing at 11:00, working every day: a valid
clinic per the HH:MM validator, whose opening time is not on the half-hour grid. -/
def c5clinic : ClinicCfg :=
  { id := 1, openTime := { hour := 9, minute := ⟨45, by omega⟩ },
    closeTime := { hour := 11, minute := ⟨0, by omega⟩ },
    workingDays := [1, 2, 3, 4, 5, 6, 7] }

/-- Store holding the off-grid clinic, its 30-minute service and no appointments. -/
def c5db : DB :=
  { appointments := [], services := [c5svc], clinics := [c5clinic], subs := [], users := [] }

/-! ## Theorems -/

/-- C2. Two concurrent create calls for the identical (clinic, date, time) must
leave exactly one SCHEDULED appointment, the loser observing a Conflict through
an atomic check-then-write. The code runs the availability read and the insert
as two separate unprotected store operations and neither the prisma schema nor
the init migration declares a unique index over (clinicId, date, time), so in
the interleaving check-check-insert-insert both validation phases see the free
slot, neither request observes a Conflict, and two SCHEDULED appointments end up
occupying the same slot. -/
theorem C2_concurrent_create_race :
    createCheckPasses raceA1 = true ∧
    createCheckPasses raceA2 = true ∧
    slotOccupants raceDBAfter 1 { day := 8, time := t1000 } t1000 = 2 ∧
    raceDBAfter.appointments.map (fun a => a.status) =
      [AppointmentStatus.scheduled, AppointmentStatus.scheduled] := by
  decide

/-- C6. A subscribe with an existing ACTIVE, unexpired subscription returns the
Conflict, persists nothing and never reaches the payment call; and a subscribe
whose payment fails returns the payment error and persists nothing. -/
theorem C6_subscribe_guard (db : DB) (now userId : Nat) (pt : PlanType)
    (notifOk : Bool) (m a : ℚ) (newId : Nat) :
    ((∃ s ∈ db.subs, s.userId = userId ∧ s.status = SubStatus.active ∧ now ≤ s.endDate) →
      ∀ paymentOk, vipSubscribe db now userId pt paymentOk notifOk m a newId =
        (.conflictActive, db, false)) ∧
    ((∀ s ∈ db.subs, ¬ (s.userId = userId ∧ s.status = SubStatus.active ∧ now ≤ s.endDate)) →
      vipSubscribe db now userId pt false notifOk m a newId = (.paymentError, db, true)) := by
  constructor
  · intro h paymentOk
    have hsome : (findActiveSubscription db now userId).isSome := by
      unfold findActiveSubscription
      rw [List.find?_isSome]
      obtain ⟨s, hs, hprop⟩ := h
      exact ⟨s, hs, by simpa using hprop⟩
    obtain ⟨s, hs⟩ := Option.isSome_iff_exists.mp hsome
    simp [vipSubscribe, hs]
  · intro h
    have hnone : findActiveSubscription db now userId = none := by
      unfold findActiveSubscription
      rw [List.find?_eq_none]
      intro s hs
      simpa using h s hs
    simp [vipSubscribe, hnone]

/-- C6 witness: the guard at the concrete stores, conflict side and payment side. -/
theorem C6_witness :
    vipSubscribe c8db 0 1 PlanType.monthly true true 1500 12000 9 =
      (.conflictActive, c8db, false) ∧
    vipSubscribe c9db 0 1 PlanType.monthly false true 1500 12000 9 =
      (.paymentError, c9db, true) :=
  ⟨(C6_subscribe_guard c8db 0 1 PlanType.monthly true 1500 12000 9).1 (by decide) true,
   (C6_subscribe_guard c9db 0 1 PlanType.monthly true 1500 12000 9).2 (by decide)⟩

/-- C8. The claim reads savings as the sum of originalPrice minus finalPrice
over completed appointments since the subscription start; the getStatus handler
instead sums the stored vipDiscount percent column. On a completed appointment
with originalPrice 8500, finalPrice 6800 and vipDiscount 20 the handler reports
20 where the specified savings are 1700. -/
theorem C8_savings_divergence :
    getStatusTotalSavings c8db 1 0 = 20 ∧
    specSavings c8db 1 0 = 1700 ∧
    ¬ getStatusTotalSavings c8db 1 0 = specSavings c8db 1 0 := by
  have h1 : getStatusTotalSavings c8db 1 0 = 20 := by
    unfold getStatusTotalSavings c8db c8appt
    norm_num [Moment.abs, Time.toMinutes, t1000]
  have h2 : specSavings c8db 1 0 = 1700 := by
    unfold specSavings c8db c8appt
    norm_num [Moment.abs, Time.toMinutes, t1000]
  refine ⟨h1, h2, ?_⟩
  rw [h1, h2]
  norm_num

/-- C9 counterexample: on the configured default prices, monthly 1500 and annual
12000, the persisted discount is exactly 100/3, while the claim requires the
rounded value 33; the handler performs no rounding. -/
theorem C9_counterexample :
    c9run.2.1.subs.map (fun s => s.discount) = [100 / 3] ∧
    round ((12 * 1500 - 12000) / (12 * 1500) * 100 : ℚ) = (33 : ℤ) ∧
    ¬ ((100 : ℚ) / 3 = 33) := by
  refine ⟨?_, by norm_num [round_eq], by norm_num⟩
  unfold c9run vipSubscribe findActiveSubscription c9db
  norm_num

/-- C9 amended: for an annual subscribe the persisted price is the configured
annual price and the persisted discount percent is exactly
(12 monthly - annual) / (12 monthly) times 100, with no rounding applied; for a
monthly subscribe the price is the flat configured monthly price with discount 0. -/
theorem C9_amended (db : DB) (now userId newId : Nat) (m a : ℚ)
    (hno : findActiveSubscription db now userId = none) :
    (∀ s db2 ch, vipSubscribe db now userId PlanType.annual true true m a newId =
        (.created s, db2, ch) →
      s.price = a ∧ s.discount = (12 * m - a) / (12 * m) * 100) ∧
    (∀ s db2 ch, vipSubscribe db now userId PlanType.monthly true true m a newId =
        (.created s, db2, ch) →
      s.price = m ∧ s.discount = 0) := by
  constructor
  · intro s db2 ch h
    simp only [vipSubscribe, hno, if_true, Prod.mk.injEq,
      SubscribeOutcome.created.injEq] at h
    obtain ⟨h1, h2, h3⟩ := h
    subst h1
    refine ⟨rfl, ?_⟩
    show (m * 12 - a) / (m * 12) * 100 = (12 * m - a) / (12 * m) * 100
    ring
  · intro s db2 ch h
    simp only [vipSubscribe, hno, if_true, Prod.mk.injEq,
      SubscribeOutcome.created.injEq] at h
    obtain ⟨h1, h2, h3⟩ := h
    subst h1
    exact ⟨rfl, rfl⟩

/-- C9 witness: the amended statement applied to the concrete run on the default
configured prices. -/
theorem C9_witness :
    findActiveSubscription c9db 0 1 = none ∧
    (∀ s db2 ch, vipSubscribe c9db 0 1 PlanType.annual true true 1500 12000 7 =
        (.created s, db2, ch) →
      s.price = 12000 ∧ s.discount = (12 * 1500 - 12000) / (12 * 1500) * 100) :=
  ⟨rfl, (C9_amended c9db 0 1 7 1500 12000 rfl).1⟩

/-- C7 counterexample: a subscribe whose payment succeeds but whose welcome
notification send fails persists the subscription yet answers with the 500
server error instead of the success result, because the handler awaits the send
with no catch. -/
theorem C7_counterexample :
    c7run.1 = SubscribeOutcome.serverError ∧
    c7run.2.1.subs.map (fun s => s.id) = [50] := by
  decide

/-- C7 amended: for appointment create, cancel, confirm and reschedule the
response and the store never depend on the notification outcome, the send being
un-awaited with a logged catch; for VIP subscribe and VIP cancel the persisted
state change equally survives a failed send, but the failure is surfaced to the
caller as the 500 server error in place of the success result, the send being
awaited with no catch. -/
theorem C7_amended (db : DB) (now userId clinicId newId id d : Nat)
    (req : CreateRequest) (t : Time) (reason : Option String) (actorId : Nat)
    (role : UserRole) (pt : PlanType) (m a : ℚ) (n1 n2 : Bool) :
    create db now userId clinicId newId req n1 = create db now userId clinicId newId req n2 ∧
    cancelAppointment db now id reason actorId role n1 =
      cancelAppointment db now id reason actorId role n2 ∧
    confirmAppointment db id n1 = confirmAppointment db id n2 ∧
    reschedule db now id d t actorId role n1 = reschedule db now id d t actorId role n2 ∧
    (findActiveSubscription db now userId = none →
      (vipSubscribe db now userId pt true false m a newId).1 = SubscribeOutcome.serverError ∧
      ∃ s ∈ (vipSubscribe db now userId pt true false m a newId).2.1.subs,
        s.id = newId ∧ s.status = SubStatus.active) ∧
    (∀ s0, findActiveSubscription db now userId = some s0 →
      (vipCancel db now userId reason false).1 = VipCancelOutcome.serverError ∧
      ∃ s2 ∈ (vipCancel db now userId reason false).2.subs,
        s2.id = s0.id ∧ s2.status = SubStatus.cancelled) := by
  refine ⟨rfl, rfl, rfl, rfl, ?_, ?_⟩
  · intro hno
    constructor
    · simp [vipSubscribe, hno]
    · simp only [vipSubscribe, hno]
      exact ⟨_, List.mem_append_right _ (List.mem_singleton_self _), rfl, rfl⟩
  · intro s0 hs0
    have hmem : s0 ∈ db.subs := by
      unfold findActiveSubscription at hs0
      exact List.mem_of_find?_eq_some hs0
    constructor
    · simp [vipCancel, hs0]
    · simp only [vipCancel, hs0]
      refine ⟨_, List.mem_map.mpr ⟨s0, hmem, rfl⟩, ?_, ?_⟩ <;> simp

/-- C7 witness: the amended statement applied at the concrete store, the VIP
subscribe side instantiated with its no-active-subscription hypothesis. -/
theorem C7_witness :
    findActiveSubscription c9db 0 1 = none ∧
    ((vipSubscribe c9db 0 1 PlanType.monthly true false 1500 12000 50).1 =
       SubscribeOutcome.serverError ∧
     ∃ s ∈ (vipSubscribe c9db 0 1 PlanType.monthly true false 1500 12000 50).2.1.subs,
       s.id = 50 ∧ s.status = SubStatus.active) :=
  ⟨rfl,
   (C7_amended c9db 0 1 1 50 1 1
      { day := 8, time := t1000, serviceId := 1, notes := none } t1000 none 1
      UserRole.admin PlanType.monthly 1500 12000 true true).2.2.2.2.1 rfl⟩

/-- C1. The pricing rule and its snapshot: a successful create persists the base
price as originalPrice; a non-VIP requester or a non-positive service discount
snapshots finalPrice equal to the base price with discount 0; a VIP requester
with positive discount d snapshots finalPrice equal to price times (1 - d/100)
with discount d; the record lands in the store in SCHEDULED status. -/
theorem C1_create_snapshots_vip_pricing (db : DB) (now userId clinicId newId : Nat)
    (req : CreateRequest) (notifOk : Bool) (svc : Service)
    (hsvc : validateServiceExists db req.serviceId clinicId = some svc)
    (hp : 0 < svc.price) (hd0 : 0 ≤ svc.vipDiscount) (hd1 : svc.vipDiscount ≤ 100)
    (a : Appointment) (db2 : DB)
    (h : create db now userId clinicId newId req notifOk = (.created a, db2)) :
    a.originalPrice = svc.price ∧
    a.status = AppointmentStatus.scheduled ∧
    a ∈ db2.appointments ∧
    ((checkUserVIPStatus db now userId = false ∨ svc.vipDiscount ≤ 0) →
      a.finalPrice = svc.price ∧ a.vipDiscount = 0) ∧
    (checkUserVIPStatus db now userId = true → 0 < svc.vipDiscount →
      a.finalPrice = svc.price * (1 - svc.vipDiscount / 100) ∧
      a.vipDiscount = svc.vipDiscount) := by
  unfold create at h
  split at h <;> try simp at h
  rename_i rec heq
  obtain ⟨hrec, hdb2⟩ := h
  subst hrec
  subst hdb2
  unfold createCheck at heq
  rw [hsvc] at heq
  split at heq <;> try simp at heq
  rename_i service hserv
  rw [Option.some.injEq] at hserv
  subst hserv
  split at heq <;> try simp at heq
  split at heq <;> try simp at heq
  subst heq
  refine ⟨rfl, rfl, by simp [createCommit], ?_, ?_⟩
  · intro h4
    rcases h4 with hvip | hd
    · simp [hvip, calculateVIPPrice]
    · cases hvip : checkUserVIPStatus db now userId <;>
        simp [hvip, calculateVIPPrice, hd]
  · intro hvip hdpos
    simp [hvip, calculateVIPPrice, not_le.mpr hdpos]

/-- C1 witness: the theorem applied to the concrete create of the 8500-peso
service by a non-VIP user on the empty store. -/
theorem C1_witness :
    (0 : ℚ) < svcA.price ∧ (0 : ℚ) ≤ svcA.vipDiscount ∧ svcA.vipDiscount ≤ 100 ∧
    (w1appt.originalPrice = svcA.price ∧
     w1appt.status = AppointmentStatus.scheduled ∧
     w1appt ∈ (createCommit raceDB w1appt).appointments ∧
     ((checkUserVIPStatus raceDB 0 1 = false ∨ svcA.vipDiscount ≤ 0) →
       w1appt.finalPrice = svcA.price ∧ w1appt.vipDiscount = 0) ∧
     (checkUserVIPStatus raceDB 0 1 = true → 0 < svcA.vipDiscount →
       w1appt.finalPrice = svcA.price * (1 - svcA.vipDiscount / 100) ∧
       w1appt.vipDiscount = svcA.vipDiscount)) :=
  ⟨by norm_num [svcA], by norm_num [svcA], by norm_num [svcA],
   C1_create_snapshots_vip_pricing raceDB 0 1 1 101 raceReq true svcA rfl
     (by norm_num [svcA]) (by norm_num [svcA]) (by norm_num [svcA]) w1appt
     (createCommit raceDB w1appt) rfl⟩

/-- C3 counterexample: a COMPLETED appointment is not terminal under reschedule:
the handler validates only the future date and the slot, succeeds on the
completed record and resets its status to SCHEDULED. -/
theorem C3_counterexample :
    (findAppointment c3db 1).map (fun a => a.status) = some AppointmentStatus.completed ∧
    rescheduleOk (reschedule c3db 0 1 8 t1000 5 UserRole.cliente true).1 = true ∧
    (reschedule c3db 0 1 8 t1000 5 UserRole.cliente true).2.appointments.map
      (fun a => a.status) = [AppointmentStatus.scheduled] := by
  decide

/-- C3 amended: COMPLETED and CANCELLED are terminal only for confirm, complete
and cancel, which reject the call and leave the store unchanged; reschedule
resets any appointment it accepts, terminal ones included, to SCHEDULED, and an
update by an ADMIN actor carrying a status field sets any requested status
regardless of the current one. -/
theorem C3_amended (db : DB) (now id : Nat) (reason notes : Option String)
    (actorId : Nat) (role : UserRole) (notifOk : Bool) (d : Nat) (t : Time)
    (a : Appointment) (hfind : findAppointment db id = some a)
    (hterm : a.status = AppointmentStatus.completed ∨
             a.status = AppointmentStatus.cancelled) :
    confirmAppointment db id notifOk = (.notScheduled, db) ∧
    completeAppointment db now id notes = (.notCompletable, db) ∧
    (cancelAppointment db now id reason actorId role notifOk).2 = db ∧
    (∀ a2, (reschedule db now id d t actorId role notifOk).1 = .ok a2 →
      a2.status = AppointmentStatus.scheduled) ∧
    (∀ st, ∃ a2,
      (updateAppointment db now id
        { day := none, time := none, serviceId := none, notes := none, status := some st }
        actorId UserRole.admin).1 = .ok a2 ∧ a2.status = st) := by
  have hns : ¬ a.status = AppointmentStatus.scheduled := by
    rcases hterm with h | h <;> simp [h]
  have hncc : ¬ (a.status = AppointmentStatus.confirmed ∨
      a.status = AppointmentStatus.inProgress) := by
    rcases hterm with h | h <;> simp [h]
  refine ⟨?_, ?_, ?_, ?_, ?_⟩
  · simp [confirmAppointment, hfind, hns]
  · simp [completeAppointment, hfind, hncc]
  · rcases hterm with h | h
    · simp only [cancelAppointment, hfind, h]
      split <;> simp
    · simp only [cancelAppointment, hfind, h]
      split <;> simp
  · intro a2 h
    unfold reschedule at h
    rw [hfind] at h
    split at h
    · simp at h
    · rename_i b hb
      rw [Option.some.injEq] at hb
      subst hb
      split at h
      · simp at h
      · by_cases hpast : ({ day := d, time := t } : Moment).abs ≤ now
        · rw [if_pos hpast] at h
          simp at h
        · rw [if_neg hpast] at h
          split at h
          · simp at h
            subst h
            rfl
          · simp at h
  · intro st
    refine ⟨{ a with status := st }, ?_, rfl⟩
    simp [updateAppointment, hfind, finishUpdate, UpdateData.isEmpty, UpdateData.applyTo]

/-- C3 witness: the amended statement applied to the completed appointment. -/
theorem C3_witness :
    findAppointment c3db 1 = some c3appt ∧
    (c3appt.status = AppointmentStatus.completed ∨
     c3appt.status = AppointmentStatus.cancelled) ∧
    (confirmAppointment c3db 1 true = (.notScheduled, c3db) ∧
     completeAppointment c3db 0 1 none = (.notCompletable, c3db) ∧
     (cancelAppointment c3db 0 1 none 5 UserRole.cliente true).2 = c3db ∧
     (∀ a2, (reschedule c3db 0 1 8 t1000 5 UserRole.cliente true).1 = .ok a2 →
       a2.status = AppointmentStatus.scheduled) ∧
     (∀ st, ∃ a2,
       (updateAppointment c3db 0 1
         { day := none, time := none, serviceId := none, notes := none, status := some st }
         5 UserRole.admin).1 = .ok a2 ∧ a2.status = st)) :=
  ⟨rfl, Or.inl rfl,
   C3_amended c3db 0 1 none none 5 UserRole.cliente true 8 t1000 c3appt rfl (Or.inl rfl)⟩

/-- C4. Cancel rejects an already CANCELLED appointment and a COMPLETED one with
an error and an unchanged store; on every other status it succeeds, stamps
status CANCELLED, cancelledAt and the cancel reason, persists the change and
touches no other record. -/
theorem C4_cancel_guard (db : DB) (now id : Nat) (reason : Option String)
    (actorId : Nat) (role : UserRole) (notifOk : Bool) (a : Appointment)
    (hfind : findAppointment db id = some a)
    (hauth : ¬ (role = UserRole.cliente ∧ ¬ a.userId = actorId)) :
    (a.status = AppointmentStatus.cancelled →
      cancelAppointment db now id reason actorId role notifOk = (.alreadyCancelled, db)) ∧
    (a.status = AppointmentStatus.completed →
      cancelAppointment db now id reason actorId role notifOk =
        (.completedNotCancellable, db)) ∧
    (¬ a.status = AppointmentStatus.cancelled → ¬ a.status = AppointmentStatus.completed →
      ∃ a2, cancelAppointment db now id reason actorId role notifOk =
          (.ok a2, updateAppointmentIn db a2) ∧
        a2.status = AppointmentStatus.cancelled ∧
        a2.cancelledAt = some now ∧
        a2.cancelReason = some (reason.getD defaultCancelReason) ∧
        a2 ∈ (updateAppointmentIn db a2).appointments ∧
        ∀ b ∈ db.appointments, ¬ b.id = id →
          b ∈ (updateAppointmentIn db a2).appointments) := by
  have hfind' : db.appointments.find? (fun b => decide (b.id = id)) = some a := hfind
  have hmem : a ∈ db.appointments := List.mem_of_find?_eq_some hfind'
  have hid : a.id = id := by simpa using List.find?_some hfind'
  refine ⟨?_, ?_, ?_⟩
  · intro h
    simp [cancelAppointment, hfind, hauth, h]
  · intro h
    simp [cancelAppointment, hfind, hauth, h]
  · intro h1 h2
    refine ⟨{ a with status := AppointmentStatus.cancelled
                     cancelledAt := some now
                     cancelReason := some (reason.getD defaultCancelReason) },
      ?_, rfl, rfl, rfl, ?_, ?_⟩
    · simp [cancelAppointment, hfind, hauth, h1, h2]
    · refine List.mem_map.mpr ⟨a, hmem, ?_⟩
      simp
    · intro b hb hbid
      refine List.mem_map.mpr ⟨b, hb, ?_⟩
      rw [if_neg]
      intro hc
      exact hbid (by rw [hc]; exact hid)

/-- C4 witness: the guard applied to the scheduled appointment of the concrete
store, cancelled by a STAFF actor. -/
theorem C4_witness :
    findAppointment w4db 2 = some w4appt ∧
    ((w4appt.status = AppointmentStatus.cancelled →
       cancelAppointment w4db 7 2 none 9 UserRole.staff true = (.alreadyCancelled, w4db)) ∧
     (w4appt.status = AppointmentStatus.completed →
       cancelAppointment w4db 7 2 none 9 UserRole.staff true =
         (.completedNotCancellable, w4db)) ∧
     (¬ w4appt.status = AppointmentStatus.cancelled →
      ¬ w4appt.status = AppointmentStatus.completed →
      ∃ a2, cancelAppointment w4db 7 2 none 9 UserRole.staff true =
          (.ok a2, updateAppointmentIn w4db a2) ∧
        a2.status = AppointmentStatus.cancelled ∧
        a2.cancelledAt = some 7 ∧
        a2.cancelReason = some (Option.getD none defaultCancelReason) ∧
        a2 ∈ (updateAppointmentIn w4db a2).appointments ∧
        ∀ b ∈ w4db.appointments, ¬ b.id = 2 →
          b ∈ (updateAppointmentIn w4db a2).appointments)) :=
  ⟨rfl, C4_cancel_guard w4db 7 2 none 9 UserRole.staff true w4appt rfl (by simp)⟩

/-- Helper: a finishUpdate whose updateData carries no status entry cannot change
the status of the record it writes. -/
theorem finishUpdate_status_none (db : DB) (a : Appointment) (ud : UpdateData)
    (payload : UpdatePayload) (hud : ud.status = none) (a2 : Appointment)
    (h : (finishUpdate db a ud payload).1 = .ok a2) : a2.status = a.status := by
  unfold finishUpdate at h
  cases hnote : payload.notes
  · simp only [hnote] at h
    split at h
    · simp at h
    · simp at h
      subst h
      simp [UpdateData.applyTo, hud]
  · simp only [hnote] at h
    split at h
    · simp at h
    · simp at h
      subst h
      simp [UpdateData.applyTo, hud]

/-- C10. An update by the owning CLIENTE whose payload carries a status entry
drops the requested status silently instead of rejecting with Forbidden: any
successful update leaves the status unchanged, other supplied fields are still
applied, and when the status was the only supplied field the call fails with
the nothing-to-update 400 error and an unchanged store. -/
theorem C10_client_status_silently_dropped (db : DB) (now id : Nat)
    (payload : UpdatePayload) (actorId : Nat) (a : Appointment)
    (st : AppointmentStatus)
    (hfind : findAppointment db id = some a)
    (hown : a.userId = actorId)
    (hst : payload.status = some st) :
    (∀ a2, (updateAppointment db now id payload actorId UserRole.cliente).1 = .ok a2 →
      a2.status = a.status) ∧
    (payload.day = none → payload.time = none → payload.serviceId = none →
     payload.notes = none →
      updateAppointment db now id payload actorId UserRole.cliente =
        (.nothingToUpdate, db)) ∧
    (∀ n, payload.day = none → payload.time = none → payload.serviceId = none →
     payload.notes = some n →
      ∃ a2, (updateAppointment db now id payload actorId UserRole.cliente).1 = .ok a2 ∧
        a2.notes = some n ∧ a2.status = a.status) := by
  refine ⟨?_, ?_, ?_⟩
  · intro a2 h
    simp only [updateAppointment, hfind, hown, hst] at h
    repeat
      first
        | exact finishUpdate_status_none db a _ _
            (by cases hd : payload.day <;> cases ht : payload.time <;> simp) a2 h
        | split at h
        | simp at h
  · intro hd ht hs hn
    simp [updateAppointment, hfind, hown, hst, hd, ht, hs, hn, finishUpdate,
      UpdateData.isEmpty]
  · intro n hd ht hs hn
    refine ⟨{ a with notes := some n }, ?_, rfl, rfl⟩
    simp [updateAppointment, hfind, hown, hst, hd, ht, hs, hn, finishUpdate,
      UpdateData.isEmpty, UpdateData.applyTo]

/-- C10 witness: the statement applied to the scheduled appointment of the
concrete store, its owner asking for status COMPLETED. -/
theorem C10_witness :
    findAppointment w4db 2 = some w4appt ∧
    w4appt.userId = 1 ∧
    c10payload.status = some AppointmentStatus.completed ∧
    ((∀ a2, (updateAppointment w4db 0 2 c10payload 1 UserRole.cliente).1 = .ok a2 →
       a2.status = w4appt.status) ∧
     (c10payload.day = none → c10payload.time = none → c10payload.serviceId = none →
      c10payload.notes = none →
       updateAppointment w4db 0 2 c10payload 1 UserRole.cliente =
         (.nothingToUpdate, w4db)) ∧
     (∀ n, c10payload.day = none → c10payload.time = none →
      c10payload.serviceId = none → c10payload.notes = some n →
       ∃ a2, (updateAppointment w4db 0 2 c10payload 1 UserRole.cliente).1 = .ok a2 ∧
         a2.notes = some n ∧ a2.status = w4appt.status)) :=
  ⟨rfl, rfl, rfl,
   C10_client_status_silently_dropped w4db 0 2 c10payload 1 w4appt
     AppointmentStatus.completed rfl rfl rfl⟩

/-- Helper: the slot loop is the candidate grid of its stepping filtered by the
booked-set and closing-fit tests. -/
theorem availableSlotsLoop_eq_filter (closeH closeM : Nat) (booked : List Time)
    (dur : Nat) (h m : Nat) (hm : m < 60) :
    availableSlotsLoop closeH closeM booked dur h m hm =
      (slotCandidates closeH closeM h m hm).filter
        (fun t => decide (¬ t ∈ booked ∧ t.toMinutes + dur ≤ closeH * 60 + closeM)) := by
  induction h, m, hm using slotCandidates.induct closeH closeM with
  | case1 h m hm hcond ih1 ih2 =>
    rw [availableSlotsLoop, slotCandidates]
    rw [dif_pos hcond, dif_pos hcond]
    by_cases hstep : 60 ≤ m + 30
    · rw [dif_pos hstep, dif_pos hstep, List.filter_cons]
      rw [ih1 hstep]
    · rw [dif_neg hstep, dif_neg hstep, List.filter_cons]
      rw [ih2 hstep]
  | case2 h m hm hcond =>
    rw [availableSlotsLoop, slotCandidates, dif_neg hcond, dif_neg hcond]
    rfl

/-- Helper: every candidate of the grid lies at or after the cursor. -/
theorem slotCandidates_lower (closeH closeM : Nat) (h m : Nat) (hm : m < 60) :
    ∀ t ∈ slotCandidates closeH closeM h m hm, h * 60 + m ≤ t.toMinutes := by
  induction h, m, hm using slotCandidates.induct closeH closeM with
  | case1 h m hm hcond ih1 ih2 =>
    intro t ht
    rw [slotCandidates, dif_pos hcond] at ht
    rcases List.mem_cons.mp ht with rfl | ht2
    · simp [Time.toMinutes]
    · by_cases hstep : 60 ≤ m + 30
      · rw [dif_pos hstep] at ht2
        have := ih1 hstep t ht2
        omega
      · rw [dif_neg hstep] at ht2
        have := ih2 hstep t ht2
        omega
  | case2 h m hm hcond =>
    intro t ht
    rw [slotCandidates, dif_neg hcond] at ht
    simp at ht

/-- Helper: the candidate grid is strictly increasing, so the loop output is
earliest-first. -/
theorem slotCandidates_pairwise (closeH closeM : Nat) (h m : Nat) (hm : m < 60) :
    (slotCandidates closeH closeM h m hm).Pairwise
      (fun a b => a.toMinutes < b.toMinutes) := by
  induction h, m, hm using slotCandidates.induct closeH closeM with
  | case1 h m hm hcond ih1 ih2 =>
    rw [slotCandidates, dif_pos hcond]
    by_cases hstep : 60 ≤ m + 30
    · rw [dif_pos hstep]
      refine List.pairwise_cons.mpr ⟨?_, ih1 hstep⟩
      intro t ht
      have hlo := slotCandidates_lower closeH closeM (h + 1) 0 (by omega) t ht
      simp only [Time.toMinutes] at hlo ⊢
      omega
    · rw [dif_neg hstep]
      refine List.pairwise_cons.mpr ⟨?_, ih2 hstep⟩
      intro t ht
      have hlo := slotCandidates_lower closeH closeM h (m + 30) (by omega) t ht
      simp only [Time.toMinutes] at hlo ⊢
      omega
  | case2 h m hm hcond =>
    rw [slotCandidates, dif_neg hcond]
    exact List.Pairwise.nil

/-- Helper: when the cursor minute is a multiple of 30, the stepping grid is the
plain arithmetic 30-minute grid. -/
theorem slotCandidates_eq_specSlotsFrom (closeH closeM : Nat) (hM : closeM < 60)
    (h m : Nat) (hm : m < 60) (hm30 : m % 30 = 0) :
    slotCandidates closeH closeM h m hm =
      specSlotsFrom (h * 60 + m) (closeH * 60 + closeM) := by
  induction h, m, hm using slotCandidates.induct closeH closeM with
  | case1 h m hm hcond ih1 ih2 =>
    have hlt : h * 60 + m < closeH * 60 + closeM := by omega
    rw [slotCandidates, dif_pos hcond]
    rw [specSlotsFrom, dif_pos hlt]
    have hhead : ({ hour := h, minute := ⟨m, hm⟩ } : Time) = minutesToTime (h * 60 + m) := by
      unfold minutesToTime
      have h1 : (h * 60 + m) / 60 = h := by omega
      have h2 : (h * 60 + m) % 60 = m := by omega
      simp [h1, h2]
    rw [hhead]
    by_cases hstep : 60 ≤ m + 30
    · rw [dif_pos hstep]
      rw [ih1 hstep (by omega)]
      have harg : (h + 1) * 60 + 0 = h * 60 + m + 30 := by omega
      rw [harg]
    · rw [dif_neg hstep]
      rw [ih2 hstep (by omega)]
      have harg : h * 60 + (m + 30) = h * 60 + m + 30 := by omega
      rw [harg]
  | case2 h m hm hcond =>
    have hge : ¬ (h * 60 + m < closeH * 60 + closeM) := by omega
    rw [slotCandidates, dif_neg hcond, specSlotsFrom, dif_neg hge]

/-- C5 counterexample: on the clinic opening 09:45 and closing 11:00 with a
30-minute service and an empty book, the loop returns 09:45, 10:00, 10:30 while
the plain 30-minute grid of the claim gives 09:45, 10:15: the stepping resets
the minute to zero at the hour rollover instead of carrying the remainder. -/
theorem C5_counterexample :
    getAvailableSlots c5db 1 8 1 ≠ specAvailableSlots c5db 1 8 1 := by
  have hv45 : ((45 : Fin 60) : Nat) = 45 := by decide
  have hv0 : ((0 : Fin 60) : Nat) = 0 := by decide
  have hv30 : ((30 : Fin 60) : Nat) = 30 := by decide
  have hv15 : ((15 : Fin 60) : Nat) = 15 := by decide
  have h1 : getAvailableSlots c5db 1 8 1 =
      .ok [{ hour := 9, minute := ⟨45, by omega⟩ }, { hour := 10, minute := ⟨0, by omega⟩ },
           { hour := 10, minute := ⟨30, by omega⟩ }] := by
    simp [getAvailableSlots, validateServiceExists, findClinic, c5db, c5svc, c5clinic,
      jsGetDay, bookedTimes, effectiveDuration, availableSlotsLoop, Time.toMinutes,
      hv45, hv0, hv30, hv15]
  have h2 : specAvailableSlots c5db 1 8 1 =
      .ok [{ hour := 9, minute := ⟨45, by omega⟩ }, { hour := 10, minute := ⟨15, by omega⟩ }] := by
    simp [specAvailableSlots, validateServiceExists, findClinic, c5db, c5svc, c5clinic,
      jsGetDay, bookedTimes, effectiveDuration, specSlotsFrom, minutesToTime, Time.toMinutes,
      hv45, hv0, hv30, hv15]
  rw [h1, h2]
  decide

/-- C5 amended: the availability enumeration is empty when the ISO weekday is
not a working day; otherwise it returns, earliest-first, exactly the slots of
the loop grid, which steps 30 minutes at a time but resets the minute to zero
whenever it reaches 60, filtered of the slots whose time equals a non-terminal
booking of the day and of the slots whose end overshoots closing; whenever the
opening minute is a multiple of 30, the loop grid is the plain 30-minute grid
and the enumeration is exactly the one the claim describes. -/
theorem C5_amended (db : DB) (clinicId day serviceId : Nat) (svc : Service)
    (clinic : ClinicCfg)
    (hsvc : validateServiceExists db serviceId clinicId = some svc)
    (hcl : findClinic db clinicId = some clinic) :
    (¬ (if jsGetDay day = 0 then 7 else jsGetDay day) ∈ clinic.workingDays →
      getAvailableSlots db clinicId day serviceId = .ok []) ∧
    ((if jsGetDay day = 0 then 7 else jsGetDay day) ∈ clinic.workingDays →
      getAvailableSlots db clinicId day serviceId =
        .ok ((slotCandidates clinic.closeTime.hour clinic.closeTime.minute.val
            clinic.openTime.hour clinic.openTime.minute.val
            clinic.openTime.minute.isLt).filter
          (fun t => decide (¬ t ∈ bookedTimes db clinicId day ∧
            t.toMinutes + effectiveDuration svc ≤
              clinic.closeTime.hour * 60 + clinic.closeTime.minute.val)))) ∧
    (∀ slots, getAvailableSlots db clinicId day serviceId = .ok slots →
      slots.Pairwise (fun a b => a.toMinutes < b.toMinutes)) ∧
    (clinic.openTime.minute.val % 30 = 0 →
      getAvailableSlots db clinicId day serviceId =
        specAvailableSlots db clinicId day serviceId) := by
  have hbase : ∀ P : SlotsOutcome → Prop,
      P (if (if jsGetDay day = 0 then 7 else jsGetDay day) ∈ clinic.workingDays then
          SlotsOutcome.ok (availableSlotsLoop clinic.closeTime.hour
            clinic.closeTime.minute.val (bookedTimes db clinicId day)
            (effectiveDuration svc) clinic.openTime.hour clinic.openTime.minute.val
            clinic.openTime.minute.isLt)
        else SlotsOutcome.ok []) →
      P (getAvailableSlots db clinicId day serviceId) := by
    intro P hP
    unfold getAvailableSlots
    rw [hsvc, hcl]
    exact hP
  refine ⟨?_, ?_, ?_, ?_⟩
  · intro hnw
    refine hbase (fun r => r = .ok []) ?_
    rw [if_neg hnw]
  · intro hw
    refine hbase (fun r => r = _) ?_
    rw [if_pos hw, availableSlotsLoop_eq_filter]
  · intro slots hslots
    revert hslots
    refine hbase (fun r => r = .ok slots → slots.Pairwise _) ?_
    by_cases hw : (if jsGetDay day = 0 then 7 else jsGetDay day) ∈ clinic.workingDays
    · rw [if_pos hw]
      intro hok
      rw [SlotsOutcome.ok.injEq] at hok
      subst hok
      rw [availableSlotsLoop_eq_filter]
      exact List.Pairwise.sublist (List.filter_sublist _) (slotCandidates_pairwise _ _ _ _ _)
    · rw [if_neg hw]
      intro hok
      rw [SlotsOutcome.ok.injEq] at hok
      subst hok
      exact List.Pairwise.nil
  · intro h30
    have hrhs : specAvailableSlots db clinicId day serviceId =
        (if (if jsGetDay day = 0 then 7 else jsGetDay day) ∈ clinic.workingDays then
          SlotsOutcome.ok ((specSlotsFrom clinic.openTime.toMinutes
              clinic.closeTime.toMinutes).filter
            (fun t => decide (¬ t ∈ bookedTimes db clinicId day ∧
              t.toMinutes + effectiveDuration svc ≤ clinic.closeTime.toMinutes)))
        else SlotsOutcome.ok []) := by
      unfold specAvailableSlots
      rw [hsvc, hcl]
    rw [hrhs]
    refine hbase (fun r => r = _) ?_
    by_cases hw : (if jsGetDay day = 0 then 7 else jsGetDay day) ∈ clinic.workingDays
    · rw [if_pos hw, if_pos hw, availableSlotsLoop_eq_filter,
        slotCandidates_eq_specSlotsFrom _ _ clinic.closeTime.minute.isLt _ _ _ h30]
      rfl
    · rw [if_neg hw, if_neg hw]

/-- C5 witness: the amended statement applied to the off-grid clinic store. -/
theorem C5_witness :
    validateServiceExists c5db 1 1 = some c5svc ∧
    findClinic c5db 1 = some c5clinic ∧
    ((¬ (if jsGetDay 8 = 0 then 7 else jsGetDay 8) ∈ c5clinic.workingDays →
       getAvailableSlots c5db 1 8 1 = .ok []) ∧
     ((if jsGetDay 8 = 0 then 7 else jsGetDay 8) ∈ c5clinic.workingDays →
       getAvailableSlots c5db 1 8 1 =
         .ok ((slotCandidates c5clinic.closeTime.hour c5clinic.closeTime.minute.val
             c5clinic.openTime.hour c5clinic.openTime.minute.val
             c5clinic.openTime.minute.isLt).filter
           (fun t => decide (¬ t ∈ bookedTimes c5db 1 8 ∧
             t.toMinutes + effectiveDuration c5svc ≤
               c5clinic.closeTime.hour * 60 + c5clinic.closeTime.minute.val)))) ∧
     (∀ slots, getAvailableSlots c5db 1 8 1 = .ok slots →
       slots.Pairwise (fun a b => a.toMinutes < b.toMinutes)) ∧
     (c5clinic.openTime.minute.val % 30 = 0 →
       getAvailableSlots c5db 1 8 1 = specAvailableSlots c5db 1 8 1)) :=
  ⟨rfl, rfl, C5_amended c5db 1 8 1 c5svc c5clinic rfl rfl⟩

end Clinic
